import Mathlib

/-!
Verification development for the Nordson Ultimus V dispenser controller
(`nordson_dispenser_control.py`).

Modelling conventions, shared by every definition below:

* A Python byte string or ASCII string is modelled as a `List Nat` of code
  points (one `Nat` per byte / character).
* Python machine integers are modelled as `Nat`/`Int`; the source's
  `& 0xFF` becomes an explicit `% 256`.
* Python floats handed to the facade are modelled as exact rationals `ℚ`;
  every concrete value a theorem evaluates at is a dyadic rational (or is
  compared only through an order test), so binary floating point computes
  the same digits / takes the same branch there.
* Fallible operations return `Option` / `Except`.
-/

namespace Nordson

/-- ASCII code of the uppercase hexadecimal digit `d` (source: the digits
produced by Python's format specifier `X`; valid for `d < 16`). -/
def hexChar (d : Nat) : Nat :=
  if d < 10 then 48 + d else 55 + d

/-- The two ASCII characters of Python's `f"{n:02X}"` for `n < 256`
(the only range the program ever formats: frame lengths are at most 255
and checksums are a masked byte). -/
def hex2 (n : Nat) : List Nat :=
  [hexChar (n / 16), hexChar (n % 16)]

/-- Value of one ASCII hexadecimal digit, upper or lower case
(`0`–`9`, `A`–`F`, `a`–`f`). -/
def hexDigitVal (c : Nat) : Option Nat :=
  if 48 ≤ c ∧ c ≤ 57 then some (c - 48)
  else if 65 ≤ c ∧ c ≤ 70 then some (c - 55)
  else if 97 ≤ c ∧ c ≤ 102 then some (c - 87)
  else none

/-- Models Python's `int(s, 16)` on the byte strings the program feeds it:
succeeds exactly when `s` is a non-empty string of hexadecimal digits.
(Python additionally tolerates surrounding whitespace, a sign, a `0x`
prefix and inner underscores; no byte string evaluated by a theorem in
this file takes one of those exotic forms.) -/
def int16 (s : List Nat) : Option Nat :=
  if s ≠ [] ∧ s.all (fun c => (hexDigitVal c).isSome) then
    some (s.foldl (fun a c => a * 16 + (hexDigitVal c).getD 0) 0)
  else none

/-- Models Python's `int(s)` (base 10) on the byte strings the program
feeds it: succeeds exactly when `s` is a non-empty string of decimal
digits (same caveat as `int16` about exotic Python forms). -/
def int10 (s : List Nat) : Option Nat :=
  if s ≠ [] ∧ s.all (fun c => 48 ≤ c ∧ c ≤ 57) then
    some (s.foldl (fun a c => a * 10 + (c - 48)) 0)
  else none

/-- Models `bytes.decode('ascii', errors='ignore')`: non-ASCII bytes
(≥ 0x80) are silently dropped, the rest map to their code points. -/
def asciiIgnore (l : List Nat) : List Nat :=
  l.filter (fun b => b < 128)

/-- `calculate_checksum_ascii` (source lines 68–75):
`(0 - sum(data_str.encode('ascii'))) & 0xFF`, i.e. the two's complement
of the low byte of the sum of the code points. -/
def calculate_checksum_ascii (s : List Nat) : Nat :=
  ((0 - (s.sum : Int)) % 256).toNat

/-- Decimal digit characters of `n`, most significant first
(fuel-based so that concrete evaluation reduces in the kernel;
fuel `n + 1` always suffices since `n + 1` exceeds the digit count). -/
def decDigitsAux : Nat → Nat → List Nat → List Nat
  | 0, _, acc => acc
  | f + 1, n, acc =>
    if n < 10 then (48 + n) :: acc
    else decDigitsAux f (n / 10) ((48 + n % 10) :: acc)

/-- ASCII decimal rendering of a natural number. -/
def decDigits (n : Nat) : List Nat :=
  decDigitsAux (n + 1) n []

/-- Python's `f"{n:0wd}"` for a non-negative `n`: the decimal rendering,
left-padded with `'0'` to width `w`. -/
def fmt0d (w : Nat) (n : Nat) : List Nat :=
  List.replicate (w - (decDigits n).length) 48 ++ decDigits n

/-- Python's `int()` applied to an exact rational: truncation toward
zero (floor for non-negative arguments, ceiling for negative ones). -/
def pyint (q : ℚ) : ℤ :=
  if 0 ≤ q then ⌊q⌋ else ⌈q⌉

/-- The command packet built by `send_command` (source lines 93–118):
`STX (0x02)`, the two-digit uppercase hex length of `code ++ data`,
the code, the data, the two-digit uppercase hex checksum of
`length_field ++ code ++ data`, `ETX (0x03)`. -/
def encodePacket (code data : List Nat) : List Nat :=
  2 :: (hex2 (code.length + data.length) ++ code ++ data ++
    hex2 (calculate_checksum_ascii
      (hex2 (code.length + data.length) ++ code ++ data)) ++ [3])

/-- One event of the response-buffer scanning loop of `check_response`
(source lines 296–345).  A `frame` event carries the decoded
command-and-data string and the (verified) received checksum; the error
events name the warning the loop logs at that point.  `incompleteLength`,
`badLength`, `incomplete` and `missingETX` correspond to `break`
statements, `badChecksumHex` and `checksumMismatch` to `continue`. -/
inductive DecEvent where
  | frame (commandAndData : List Nat) (checksum : Nat)
  | checksumMismatch
  | badChecksumHex
  | incompleteLength
  | badLength
  | incomplete
  | missingETX
  deriving DecidableEq, Repr

/-- The scanning loop of `check_response` (source lines 297–344), with
explicit fuel so that concrete buffers evaluate in the kernel; one unit
of fuel is spent per loop iteration that consumes an `STX`-headed span
or skips a noise byte, so fuel `buf.length` always suffices.

Loop body, byte for byte against the source:
* a byte other than `STX (0x02)` is skipped;
* after `STX`: fewer than 2 remaining bytes → "Incomplete length", break;
* the 2-byte length field is ASCII-decoded (`errors='ignore'`) and parsed
  as hex → "Invalid length", break, when that fails;
* fewer than `length + 2` bytes after the length field → "Incomplete
  command/data", break;
* the byte after the `length`-byte payload and the 2-byte checksum field
  must be `ETX (0x03)` → "Missing ETX", break, otherwise;
* a non-hex checksum field → "Invalid checksum", continue after the span;
* a checksum different from `calculate_checksum_ascii` of the decoded
  length field and payload → "Checksum mismatch", continue;
* otherwise the frame is reported and scanning continues after the span. -/
def scanFuel : Nat → List Nat → List DecEvent
  | 0, _ => []
  | _ + 1, [] => []
  | f + 1, b :: rest =>
    if b = 2 then
      if rest.length < 2 then [DecEvent.incompleteLength]
      else
        match int16 (asciiIgnore (rest.take 2)) with
        | none => [DecEvent.badLength]
        | some n =>
          if (rest.drop 2).length < n + 2 then [DecEvent.incomplete]
          else if ((rest.drop 2).drop (n + 2)).head? ≠ some 3 then [DecEvent.missingETX]
          else
            match int16 (asciiIgnore (((rest.drop 2).drop n).take 2)) with
            | none => DecEvent.badChecksumHex :: scanFuel f ((rest.drop 2).drop (n + 2)).tail
            | some rc =>
              if rc ≠ calculate_checksum_ascii
                  (asciiIgnore (rest.take 2) ++ asciiIgnore ((rest.drop 2).take n)) then
                DecEvent.checksumMismatch :: scanFuel f ((rest.drop 2).drop (n + 2)).tail
              else
                DecEvent.frame (asciiIgnore ((rest.drop 2).take n)) rc ::
                  scanFuel f ((rest.drop 2).drop (n + 2)).tail
    else scanFuel f rest

/-- The sequence of frames and frame errors `check_response` extracts
from a raw response buffer. -/
def check_response_scan (buf : List Nat) : List DecEvent :=
  scanFuel buf.length buf

/-- The encoder's packet with its checksum field overwritten by the hex
rendering of `(checksum + 1) % 256`: a structurally complete frame span
whose transmitted checksum is wrong. -/
def corruptPacket (code data : List Nat) : List Nat :=
  2 :: (hex2 (code.length + data.length) ++ code ++ data ++
    hex2 ((calculate_checksum_ascii
      (hex2 (code.length + data.length) ++ code ++ data) + 1) % 256) ++ [3])

/-! ### Session cycle and device facade -/

/-- Result of one `send_command` cycle, as far as the handshake decides
it: either the handshake failed and the function returned early, or the
command packet was transmitted. -/
inductive CycleResult where
  | handshakeFailed
  | packetSent (packet : List Nat)
  deriving DecidableEq, Repr

/-- The handshake-and-transmit portion of `send_command` (source lines
80–126): write `ENQ (0x05)`, read one byte; if that read (possibly
empty) is not exactly `ACK (0x06)`, return with nothing further written;
otherwise build the packet and write it.  The first component collects
the transport writes in order; response processing (`check_response`,
modelled by `check_response_scan`) runs only in the `packetSent` case. -/
def send_command_cycle (ack : List Nat) (code data : List Nat) :
    List (List Nat) × CycleResult :=
  if ack = [6] then
    ([[5], encodePacket code data], CycleResult.packetSent (encodePacket code data))
  else ([[5]], CycleResult.handshakeFailed)

/-- The `pressure` branch of `dispenser_callback` (source lines
147–156): values in `[0.0, 100.0]` are encoded as
`f"{int(v * 10):04d}"` and sent with code `'PS  '`; out-of-range values
are logged as errors and nothing is sent (`none`). -/
def set_pressure (v : ℚ) : Option (List Nat × List Nat) :=
  if 0 ≤ v ∧ v ≤ 100 then
    some ([80, 83, 32, 32], fmt0d 4 (pyint (v * 10)).toNat)
  else none

/-- The `vacuum` branch of `dispenser_callback` (source lines 157–166):
range `[0.0, 18.0]`, code `'VS  '`, data `f"{int(v * 10):04d}"`. -/
def set_vacuum (v : ℚ) : Option (List Nat × List Nat) :=
  if 0 ≤ v ∧ v ≤ 18 then
    some ([86, 83, 32, 32], fmt0d 4 (pyint (v * 10)).toNat)
  else none

/-- The `time` branch of `dispenser_callback` (source lines 177–191):
range `[0.0000, 9.9999]`, code `'DS  '`, data `'T'` followed by
`int(v * 10000)` zero-padded to 4 digits when `v < 1.0` and to 5 digits
otherwise. -/
def set_dispense_time (v : ℚ) : Option (List Nat × List Nat) :=
  if 0 ≤ v ∧ v ≤ 99999 / 10000 then
    some ([68, 83, 32, 32],
      if v < 1 then 84 :: fmt0d 4 (pyint (v * 10000)).toNat
      else 84 :: fmt0d 5 (pyint (v * 10000)).toNat)
  else none

/-- The `read_values` branch of `dispenser_callback` (source lines
192–208): the memory location defaults to 0 when no argument is given;
locations in `[0, 399]` are encoded as `f"{loc:03d}"` and sent with the
2-character code `'E8'`; out-of-range locations send nothing. -/
def read_values (arg : Option ℤ) : Option (List Nat × List Nat) :=
  let memory_location : ℤ := match arg with | some n => n | none => 0
  if 0 ≤ memory_location ∧ memory_location ≤ 399 then
    some ([69, 56], fmt0d 3 memory_location.toNat)
  else none

/-- The `set_pressure_units` branch (source lines 209–219): the
lower-cased unit token is looked up in `{psi: '00', bar: '01',
kpa: '02'}` and sent with code `'E6  '`; unknown units send nothing. -/
def set_pressure_units (u : List Nat) : Option (List Nat × List Nat) :=
  if u = [112, 115, 105] then some ([69, 54, 32, 32], [48, 48])
  else if u = [98, 97, 114] then some ([69, 54, 32, 32], [48, 49])
  else if u = [107, 112, 97] then some ([69, 54, 32, 32], [48, 50])
  else none

/-- The `set_vacuum_units` branch (source lines 220–230): lookup in
`{kpa: '00', inches_h2o: '01', inches_hg: '02', mmhg: '03', torr: '04'}`,
code `'E7  '`. -/
def set_vacuum_units (u : List Nat) : Option (List Nat × List Nat) :=
  if u = [107, 112, 97] then some ([69, 55, 32, 32], [48, 48])
  else if u = [105, 110, 99, 104, 101, 115, 95, 104, 50, 111] then
    some ([69, 55, 32, 32], [48, 49])
  else if u = [105, 110, 99, 104, 101, 115, 95, 104, 103] then
    some ([69, 55, 32, 32], [48, 50])
  else if u = [109, 109, 104, 103] then some ([69, 55, 32, 32], [48, 51])
  else if u = [116, 111, 114, 114] then some ([69, 55, 32, 32], [48, 52])
  else none

/-- The logical operations `dispenser_callback` dispatches on
(source lines 140–232), after the CLI layer has parsed the command
word and its argument.  `unknown` is the final `else` branch. -/
inductive Op where
  | start
  | stop
  | pressure (v : ℚ)
  | vacuum (v : ℚ)
  | toggleMode
  | time (v : ℚ)
  | readValues (arg : Option ℤ)
  | setPressureUnits (u : List Nat)
  | setVacuumUnits (u : List Nat)
  | unknown
  deriving DecidableEq

/-- Initial value of `self.is_timed_mode` set in `__init__`
(source line 16): the controller starts in Timed mode. -/
def init_is_timed_mode : Bool := true

/-- One invocation of `dispenser_callback` (source lines 140–232):
given the parsed operation, the single byte read after `ENQ` (the
transport's behaviour for this cycle) and the current
`is_timed_mode`, it returns the new `is_timed_mode` and the transport
writes.  Only the `toggle_mode` branch touches `is_timed_mode`
(source lines 167–176), and it flips it after issuing the `'TM  '`
command no matter what the transport answered; validation failures in
the other branches send nothing and leave the mode alone. -/
def dispenser_callback (op : Op) (ack : List Nat) (mode : Bool) :
    Bool × List (List Nat) :=
  let send : Option (List Nat × List Nat) → List (List Nat) := fun p =>
    match p with
    | some cd => (send_command_cycle ack cd.1 cd.2).1
    | none => []
  match op with
  | Op.start => (mode, send (some ([68, 73, 32, 32], [])))
  | Op.stop => (mode, send (some ([68, 73, 32, 32], [])))
  | Op.pressure v => (mode, send (set_pressure v))
  | Op.vacuum v => (mode, send (set_vacuum v))
  | Op.toggleMode => (!mode, send (some ([84, 77, 32, 32], [])))
  | Op.time v => (mode, send (set_dispense_time v))
  | Op.readValues arg => (mode, send (read_values arg))
  | Op.setPressureUnits u => (mode, send (set_pressure_units u))
  | Op.setVacuumUnits u => (mode, send (set_vacuum_units u))
  | Op.unknown => (mode, [])

/-! ### Read-values payload parsing -/

/-- Error raised by `parse_read_values`: either a missing marker
(named, as in the log message `Invalid response format: Missing '…'`)
or the generic `except` branch (a non-numeric digit field making
Python's `int()` raise). -/
inductive ParseErr where
  | missing (marker : List Nat)
  | exc
  deriving DecidableEq, Repr

/-- `parse_read_values` (source lines 234–276): the payload must read
`'D0'`, then `'PD'` + 4 pressure digits, `'DT'` + 5 time digits,
`'VC'` + 4 vacuum digits, each literal checked in that order; pressure
and vacuum are divided by 10.0 and time by 10000.0.  A failing literal
check logs `Missing '…'` naming that marker; a digit field `int()`
cannot parse lands in the `except` handler. -/
def parse_read_values (s : List Nat) : Except ParseErr (ℚ × ℚ × ℚ) :=
  if s.take 2 = [68, 48] then
    if (s.drop 2).take 2 = [80, 68] then
      match int10 ((s.drop 4).take 4) with
      | none => Except.error ParseErr.exc
      | some p =>
        if (s.drop 8).take 2 = [68, 84] then
          match int10 ((s.drop 10).take 5) with
          | none => Except.error ParseErr.exc
          | some t =>
            if (s.drop 15).take 2 = [86, 67] then
              match int10 ((s.drop 17).take 4) with
              | none => Except.error ParseErr.exc
              | some vc =>
                Except.ok ((p : ℚ) / 10, (t : ℚ) / 10000, (vc : ℚ) / 10)
            else Except.error (ParseErr.missing [86, 67])
          else Except.error (ParseErr.missing [68, 84])
      else Except.error (ParseErr.missing [80, 68])
  else Except.error (ParseErr.missing [68, 48])

/-! ### Spec-modelled rounding encoders (for claims C5 and C6)

The spec's Value Interpreter says pressure is encoded as
`round(value * 10)` and dispense time as `round(value * 10000)`.
These two definitions follow those words (with `round` the usual
round-to-nearest; at every input a theorem below evaluates them on,
the value is not a half-integer tie, so every rounding convention
agrees), to be compared against the `int()`-truncating code. -/

/-- Modelled from the spec: `round(value * 10)` zero-padded to 4 digits
(the spec's pressure encoding rule). -/
def pressure_data_round (v : ℚ) : List Nat :=
  fmt0d 4 (round (v * 10)).toNat

/-- Modelled from the spec: `'T'` + `round(value * 10000)` zero-padded
to 4 digits if `value < 1.0` else 5 (the spec's dispense-time encoding
rule). -/
def dispense_time_data_round (v : ℚ) : List Nat :=
  if v < 1 then 84 :: fmt0d 4 (round (v * 10000)).toNat
  else 84 :: fmt0d 5 (round (v * 10000)).toNat

/-! ### Helper lemmas about the hex fields and the scanner -/

theorem hexChar_lt_128 {d : Nat} (h : d < 16) : hexChar d < 128 := by
  unfold hexChar; split <;> omega

theorem hexDigitVal_hexChar {d : Nat} (h : d < 16) : hexDigitVal (hexChar d) = some d := by
  unfold hexDigitVal hexChar
  by_cases h10 : d < 10
  · rw [if_pos h10, if_pos (by omega)]
    exact congrArg some (by omega)
  · rw [if_neg h10, if_neg (by omega), if_pos (by omega)]
    exact congrArg some (by omega)

theorem asciiIgnore_of_lt {l : List Nat} (h : ∀ b ∈ l, b < 128) :
    asciiIgnore l = l := by
  unfold asciiIgnore
  exact List.filter_eq_self.mpr (fun a ha => decide_eq_true (h a ha))

theorem asciiIgnore_hex2 {n : Nat} (h : n < 256) : asciiIgnore (hex2 n) = hex2 n := by
  apply asciiIgnore_of_lt
  intro b hb
  unfold hex2 at hb
  simp only [List.mem_cons, List.not_mem_nil, or_false] at hb
  rcases hb with h1 | h1
  · exact h1 ▸ hexChar_lt_128 (by omega)
  · exact h1 ▸ hexChar_lt_128 (Nat.mod_lt _ (by omega))

theorem int16_hex2 {n : Nat} (h : n < 256) : int16 (hex2 n) = some n := by
  unfold int16 hex2
  rw [if_pos]
  · refine congrArg some ?_
    simp only [List.foldl, hexDigitVal_hexChar (show n / 16 < 16 by omega),
      hexDigitVal_hexChar (Nat.mod_lt n (show 0 < 16 by omega)), Option.getD_some]
    omega
  · refine ⟨by simp, ?_⟩
    simp only [List.all_cons, List.all_nil, Bool.and_true,
      hexDigitVal_hexChar (show n / 16 < 16 by omega),
      hexDigitVal_hexChar (Nat.mod_lt n (show 0 < 16 by omega)), Option.isSome_some,
      Bool.and_self]

theorem checksum_lt_256 (s : List Nat) : calculate_checksum_ascii s < 256 := by
  unfold calculate_checksum_ascii; omega

theorem hex2_length (n : Nat) : (hex2 n).length = 2 := rfl

/-- One-step unfolding of `scanFuel` on a buffer that starts with `STX`. -/
theorem scanFuel_succ_stx (f : Nat) (t : List Nat) :
    scanFuel (f + 1) (2 :: t) =
      (if t.length < 2 then [DecEvent.incompleteLength]
      else
        match int16 (asciiIgnore (t.take 2)) with
        | none => [DecEvent.badLength]
        | some n =>
          if (t.drop 2).length < n + 2 then [DecEvent.incomplete]
          else if ((t.drop 2).drop (n + 2)).head? ≠ some 3 then [DecEvent.missingETX]
          else
            match int16 (asciiIgnore (((t.drop 2).drop n).take 2)) with
            | none => DecEvent.badChecksumHex :: scanFuel f ((t.drop 2).drop (n + 2)).tail
            | some rc =>
              if rc ≠ calculate_checksum_ascii
                  (asciiIgnore (t.take 2) ++ asciiIgnore ((t.drop 2).take n)) then
                DecEvent.checksumMismatch :: scanFuel f ((t.drop 2).drop (n + 2)).tail
              else
                DecEvent.frame (asciiIgnore ((t.drop 2).take n)) rc ::
                  scanFuel f ((t.drop 2).drop (n + 2)).tail) := by
  simp only [scanFuel, if_pos (show (2 : Nat) = 2 from rfl), if_true]

/-- The fuel argument of `scanFuel` is irrelevant once it covers the
buffer length. -/
theorem scanFuel_mono :
    ∀ (f g : Nat) (buf : List Nat), buf.length ≤ f → buf.length ≤ g →
      scanFuel f buf = scanFuel g buf := by
  intro f
  induction f with
  | zero =>
    intro g buf hf _
    have hb : buf = [] := List.eq_nil_of_length_eq_zero (Nat.le_zero.mp hf)
    subst hb
    cases g <;> rfl
  | succ f ih =>
    intro g buf hf hg
    match buf with
    | [] => cases g <;> rfl
    | b :: rest =>
      match g with
      | 0 => simp at hg
      | g + 1 =>
        have hrest_f : rest.length ≤ f := by simpa using hf
        have hrest_g : rest.length ≤ g := by simpa using hg
        simp only [scanFuel]
        by_cases hb : b = 2
        · rw [if_pos hb, if_pos hb]
          by_cases h2 : rest.length < 2
          · rw [if_pos h2, if_pos h2]
          · rw [if_neg h2, if_neg h2]
            rcases hI : int16 (asciiIgnore (rest.take 2)) with _ | n
            · rfl
            · simp only
              by_cases h3 : (rest.drop 2).length < n + 2
              · rw [if_pos h3, if_pos h3]
              · rw [if_neg h3, if_neg h3]
                have htail : (((rest.drop 2).drop (n + 2)).tail).length ≤ rest.length := by
                  simp only [List.length_tail, List.length_drop]
                  omega
                by_cases h4 : ((rest.drop 2).drop (n + 2)).head? ≠ some 3
                · rw [if_pos h4, if_pos h4]
                · rw [if_neg h4, if_neg h4]
                  rcases hC : int16 (asciiIgnore (((rest.drop 2).drop n).take 2)) with _ | rc
                  · simp only [List.cons.injEq, true_and]
                    exact ih g _ (le_trans htail hrest_f) (le_trans htail hrest_g)
                  · simp only
                    by_cases h5 : rc ≠ calculate_checksum_ascii
                        (asciiIgnore (rest.take 2) ++ asciiIgnore ((rest.drop 2).take n))
                    · rw [if_pos h5, if_pos h5]
                      simp only [List.cons.injEq, true_and]
                      exact ih g _ (le_trans htail hrest_f) (le_trans htail hrest_g)
                    · rw [if_neg h5, if_neg h5]
                      simp only [List.cons.injEq, true_and]
                      exact ih g _ (le_trans htail hrest_f) (le_trans htail hrest_g)
        · rw [if_neg hb, if_neg hb]
          exact ih g rest hrest_f hrest_g

/-- Scanning a buffer that starts with one structurally complete frame
span (`STX`, two-digit hex length field, `n`-byte ASCII payload,
two-digit hex checksum field, `ETX`) yields one event for that span —
the frame itself when the checksum field matches the recomputed
checksum, a checksum mismatch otherwise — and then scans the remainder
of the buffer. -/
theorem scan_frame_span (n c : Nat) (payload rest : List Nat)
    (hn : n < 256) (hc : c < 256) (hL : payload.length = n)
    (hA : ∀ b ∈ payload, b < 128) :
    check_response_scan (2 :: (hex2 n ++ (payload ++ (hex2 c ++ 3 :: rest)))) =
      (if c ≠ calculate_checksum_ascii (hex2 n ++ payload) then
        DecEvent.checksumMismatch
      else DecEvent.frame payload c) :: check_response_scan rest := by
  have htake2 : (hex2 n ++ (payload ++ (hex2 c ++ 3 :: rest))).take 2 = hex2 n :=
    List.take_left' (hex2_length n)
  have hdrop2 : (hex2 n ++ (payload ++ (hex2 c ++ 3 :: rest))).drop 2 =
      payload ++ (hex2 c ++ 3 :: rest) :=
    List.drop_left' (hex2_length n)
  have htaken : (payload ++ (hex2 c ++ 3 :: rest)).take n = payload :=
    List.take_left' hL
  have hdropn : (payload ++ (hex2 c ++ 3 :: rest)).drop n = hex2 c ++ 3 :: rest :=
    List.drop_left' hL
  have hdropn2 : (payload ++ (hex2 c ++ 3 :: rest)).drop (n + 2) = 3 :: rest := by
    rw [show payload ++ (hex2 c ++ 3 :: rest) = (payload ++ hex2 c) ++ 3 :: rest from
      (List.append_assoc _ _ _).symm]
    exact List.drop_left' (by rw [List.length_append, hL, hex2_length])
  have hlen : (hex2 n ++ (payload ++ (hex2 c ++ 3 :: rest))).length =
      n + 5 + rest.length := by
    simp only [List.length_append, List.length_cons, hex2_length, hL]
    omega
  have hlen2 : (payload ++ (hex2 c ++ 3 :: rest)).length = n + 3 + rest.length := by
    simp only [List.length_append, List.length_cons, hex2_length, hL]
    omega
  unfold check_response_scan
  rw [List.length_cons]
  rw [scanFuel_succ_stx]
  rw [if_neg (show ¬((hex2 n ++ (payload ++ (hex2 c ++ 3 :: rest))).length < 2) from by
    rw [hlen]; omega)]
  simp only [htake2, asciiIgnore_hex2 hn, int16_hex2 hn, hdrop2]
  rw [if_neg (show ¬((payload ++ (hex2 c ++ 3 :: rest)).length < n + 2) from by
    rw [hlen2]; omega)]
  rw [hdropn2]
  rw [if_neg (show ¬(((3 : Nat) :: rest).head? ≠ some 3) from by simp)]
  simp only [List.tail_cons, hdropn, List.take_left' (hex2_length c),
    asciiIgnore_hex2 hc, int16_hex2 hc, htaken, asciiIgnore_of_lt hA]
  have hrest : scanFuel (hex2 n ++ (payload ++ (hex2 c ++ 3 :: rest))).length rest =
      scanFuel rest.length rest :=
    scanFuel_mono _ _ rest (by rw [hlen]; omega) (le_refl _)
  rw [hrest]
  by_cases hcc : c ≠ calculate_checksum_ascii (hex2 n ++ payload)
  · rw [if_pos hcc, if_pos hcc]
  · rw [if_neg hcc, if_neg hcc]

/-- Scanning the encoder's output yields exactly one well-formed frame:
its payload is `code ++ data` and its checksum is the checksum recomputed
over the length field and the payload. -/
theorem scan_encodePacket (code data : List Nat)
    (hA : ∀ b ∈ code ++ data, b < 128)
    (hL : code.length + data.length ≤ 255) :
    check_response_scan (encodePacket code data) =
      [DecEvent.frame (code ++ data)
        (calculate_checksum_ascii
          (hex2 (code.length + data.length) ++ (code ++ data)))] := by
  have hpkt : encodePacket code data =
      2 :: (hex2 (code.length + data.length) ++ ((code ++ data) ++
        (hex2 (calculate_checksum_ascii
          (hex2 (code.length + data.length) ++ (code ++ data))) ++ 3 :: []))) := by
    unfold encodePacket
    simp [List.append_assoc]
  rw [hpkt]
  rw [scan_frame_span (code.length + data.length) _ (code ++ data) []
    (by omega) (checksum_lt_256 _) (by simp) hA]
  rw [if_neg (by simp)]
  rfl

/-! ### Claim C3: the checksum cancels the byte sum modulo 256 -/

/-- C3: for every ASCII string `s`, `calculate_checksum_ascii` returns an
unsigned 8-bit value and `(checksum(s) + sum(ascii(s))) mod 256 = 0`.
(Proved for every `List Nat`, which subsumes the ASCII strings.) -/
theorem checksum_cancels_sum (s : List Nat) :
    calculate_checksum_ascii s < 256 ∧
    (calculate_checksum_ascii s + s.sum) % 256 = 0 := by
  unfold calculate_checksum_ascii
  constructor <;> omega

/-! ### Claim C1: the exact bytes of the pressure-50.0 command

The claim (and the spec's end-to-end scenario) says the packet is
`STX "06PS  0500" HH ETX`.  The source computes the length field as
`len(command_str) + len(data_str)` (line 101), which for the 4-character
code `'PS  '` and the 4-character data `'0500'` is 8, rendered `"08"` —
not `"06"`.  So the encoded packet is `STX "08PS  0500" "F0" ETX`
(checksum of `"08PS  0500"` is `0xF0`); the claimed sequence
`STX "06PS  0500" "F2" ETX` (checksum of `"06PS  0500"` is `0xF2`) is a
different byte string. -/

/-- C1 counterexample: the packet the code builds for `('PS  ', '0500')`
starts `STX '0' '8'`, so it is not the claimed
`STX ‖ "06PS  0500" ‖ hex(checksum("06PS  0500")) ‖ ETX` sequence. -/
theorem encode_ps_0500_not_06 :
    encodePacket [80, 83, 32, 32] [48, 53, 48, 48] =
      [2, 48, 56, 80, 83, 32, 32, 48, 53, 48, 48, 70, 48, 3] ∧
    calculate_checksum_ascii [48, 54, 80, 83, 32, 32, 48, 53, 48, 48] = 242 ∧
    hex2 242 = [70, 50] ∧
    encodePacket [80, 83, 32, 32] [48, 53, 48, 48] ≠
      2 :: ([48, 54, 80, 83, 32, 32, 48, 53, 48, 48] ++ [70, 50] ++ [3]) := by
  refine ⟨?_, ?_, ?_, ?_⟩ <;> decide

/-- C1 amended: encoding `('PS  ', '0500')` produces exactly
`STX ‖ "08PS  0500" ‖ HH ‖ ETX`, where the length field `"08"` counts the
4 command plus 4 data characters and `HH` is the uppercase two-digit hex
rendering of `calculate_checksum_ascii("08PS  0500")`, concretely
`0xF0`. -/
theorem encode_ps_0500_amended :
    encodePacket [80, 83, 32, 32] [48, 53, 48, 48] =
      2 :: ([48, 56, 80, 83, 32, 32, 48, 53, 48, 48] ++
        hex2 (calculate_checksum_ascii [48, 56, 80, 83, 32, 32, 48, 53, 48, 48]) ++ [3]) ∧
    calculate_checksum_ascii [48, 56, 80, 83, 32, 32, 48, 53, 48, 48] = 240 ∧
    hex2 240 = [70, 48] := by
  refine ⟨?_, ?_, ?_⟩ <;> decide

/-! ### Claim C2: encode/decode round trip -/

/-- C2: for ASCII `code` and `data` with `len(code) + len(data) ≤ 255`,
decoding the encoder's output yields exactly one well-formed frame: its
command-and-data payload is `code ++ data` (the spec's Frame carries the
pair as that one string) and its transmitted checksum equals the
checksum recomputed over the length field and the payload. -/
theorem roundtrip_encode_decode (code data : List Nat)
    (hA : ∀ b ∈ code ++ data, b < 128)
    (hL : code.length + data.length ≤ 255) :
    check_response_scan (encodePacket code data) =
      [DecEvent.frame (code ++ data)
        (calculate_checksum_ascii
          (hex2 (code.length + data.length) ++ (code ++ data)))] :=
  scan_encodePacket code data hA hL

/-- Witness for `roundtrip_encode_decode` at `('PS  ', '0500')`. -/
theorem roundtrip_encode_decode_witness :
    (∀ b ∈ (([80, 83, 32, 32] ++ [48, 53, 48, 48]) : List Nat), b < 128) ∧
    ([80, 83, 32, 32] : List Nat).length + ([48, 53, 48, 48] : List Nat).length ≤ 255 ∧
    check_response_scan (encodePacket [80, 83, 32, 32] [48, 53, 48, 48]) =
      [DecEvent.frame (([80, 83, 32, 32] : List Nat) ++ [48, 53, 48, 48])
        (calculate_checksum_ascii
          (hex2 (([80, 83, 32, 32] : List Nat).length + ([48, 53, 48, 48] : List Nat).length) ++
            (([80, 83, 32, 32] : List Nat) ++ [48, 53, 48, 48])))] :=
  ⟨by decide, by decide,
    roundtrip_encode_decode [80, 83, 32, 32] [48, 53, 48, 48] (by decide) (by decide)⟩

/-! ### Claim C4: resumability of decoding

The claim's particular scenario holds: a checksum-corrupted frame is
reported and scanning continues to the valid frame after it (the loop
`continue`s).  Its universal part is false: on a structurally malformed
frame — here a non-hexadecimal length field — the loop `break`s, so a
well-formed frame later in the same buffer is never recovered. -/

/-- C4 counterexample: the buffer `STX 'Z' 'Z'` followed by the valid
frame `encodePacket "A0" ""` decodes to a single `badLength` error — the
well-formed frame that follows the malformed one (recoverable on its
own, second conjunct) is not recovered. -/
theorem malformed_frame_blocks_recovery :
    check_response_scan ([2, 90, 90] ++ encodePacket [65, 48] []) =
      [DecEvent.badLength] ∧
    DecEvent.frame [65, 48] 45 ∉
      check_response_scan ([2, 90, 90] ++ encodePacket [65, 48] []) ∧
    check_response_scan (encodePacket [65, 48] []) =
      [DecEvent.frame [65, 48] 45] := by
  refine ⟨?_, ?_, ?_⟩ <;> decide

/-- C4 amended: decoding resumes after a checksum-mismatched frame — a
buffer holding one checksum-corrupted (structurally complete) frame
followed by one valid frame yields exactly one `checksumMismatch` and
one valid frame, in that order.  (Structurally malformed frames, by
contrast, abort the scan of the remaining buffer.) -/
theorem decode_resumes_after_checksum_mismatch (code data : List Nat)
    (hA : ∀ b ∈ code ++ data, b < 128)
    (hL : code.length + data.length ≤ 255) :
    check_response_scan (corruptPacket code data ++ encodePacket code data) =
      [DecEvent.checksumMismatch,
        DecEvent.frame (code ++ data)
          (calculate_checksum_ascii
            (hex2 (code.length + data.length) ++ (code ++ data)))] := by
  have hreshape : corruptPacket code data ++ encodePacket code data =
      2 :: (hex2 (code.length + data.length) ++ ((code ++ data) ++
        (hex2 ((calculate_checksum_ascii
          (hex2 (code.length + data.length) ++ (code ++ data)) + 1) % 256) ++
          3 :: encodePacket code data))) := by
    unfold corruptPacket
    simp [List.append_assoc]
  rw [hreshape]
  rw [scan_frame_span (code.length + data.length) _ (code ++ data) _
    (by omega) (Nat.mod_lt _ (by omega)) (by simp) hA]
  rw [if_pos (show (calculate_checksum_ascii
      (hex2 (code.length + data.length) ++ (code ++ data)) + 1) % 256 ≠
      calculate_checksum_ascii (hex2 (code.length + data.length) ++ (code ++ data)) from by
    have := checksum_lt_256 (hex2 (code.length + data.length) ++ (code ++ data))
    omega)]
  rw [scan_encodePacket code data hA hL]

/-- Witness for `decode_resumes_after_checksum_mismatch` at
`('A0', '')`. -/
theorem decode_resumes_after_checksum_mismatch_witness :
    (∀ b ∈ (([65, 48] ++ []) : List Nat), b < 128) ∧
    ([65, 48] : List Nat).length + ([] : List Nat).length ≤ 255 ∧
    check_response_scan (corruptPacket [65, 48] [] ++ encodePacket [65, 48] []) =
      [DecEvent.checksumMismatch,
        DecEvent.frame (([65, 48] : List Nat) ++ [])
          (calculate_checksum_ascii
            (hex2 (([65, 48] : List Nat).length + ([] : List Nat).length) ++
              (([65, 48] : List Nat) ++ [])))] :=
  ⟨by decide, by decide,
    decode_resumes_after_checksum_mismatch [65, 48] [] (by decide) (by decide)⟩

/-! ### Claim C5: pressure encoding

The range check and the 4-digit zero-padded `'PS  '` transmission are as
claimed, but the code converts with Python's `int()` — truncation toward
zero — not `round()`.  At `v = 101/128 = 0.7890625` (exactly
representable in binary floating point, so the float computation agrees
with the exact rational one) `v * 10 = 7.890625`: the code sends
`'0007'`, while `round` gives 8, i.e. `'0008'`. -/

/-- C5 counterexample: at `v = 101/128`, `set_pressure` encodes `'0007'`,
not the `'0008'` the claim's `round(v * 10)` rule prescribes. -/
theorem set_pressure_truncates_not_rounds :
    set_pressure (101 / 128) = some ([80, 83, 32, 32], [48, 48, 48, 55]) ∧
    pressure_data_round (101 / 128) = [48, 48, 48, 56] ∧
    set_pressure (101 / 128) ≠
      some ([80, 83, 32, 32], pressure_data_round (101 / 128)) := by
  have hi : pyint ((101 : ℚ) / 128 * 10) = 7 := by
    rw [pyint, if_pos (by norm_num)]
    norm_num
  have hr : pressure_data_round (101 / 128) = [48, 48, 48, 56] := by
    have : round ((101 : ℚ) / 128 * 10) = 8 := by norm_num [round_eq]
    rw [pressure_data_round, this]
    decide
  have he : set_pressure (101 / 128) = some ([80, 83, 32, 32], [48, 48, 48, 55]) := by
    rw [set_pressure, if_pos (by norm_num), hi]
    decide
  refine ⟨he, hr, ?_⟩
  rw [he, hr]
  decide

/-- C5 amended: for `v ∈ [0.0, 100.0]`, `set_pressure v` encodes the
data field as `int(v * 10)` (truncation toward zero) zero-padded to 4
digits with command code `'PS  '`; for `v` outside the range (e.g.
`100.0001`) it fails validation and nothing is constructed or sent;
`set_pressure 100.0` succeeds with data `'1000'`. -/
theorem set_pressure_amended :
    (∀ v : ℚ, 0 ≤ v → v ≤ 100 →
      set_pressure v = some ([80, 83, 32, 32], fmt0d 4 (pyint (v * 10)).toNat)) ∧
    (∀ v : ℚ, ¬(0 ≤ v ∧ v ≤ 100) → set_pressure v = none) ∧
    set_pressure 100 = some ([80, 83, 32, 32], [49, 48, 48, 48]) ∧
    set_pressure (1000001 / 10000) = none := by
  refine ⟨?_, ?_, ?_, ?_⟩
  · intro v h1 h2
    rw [set_pressure, if_pos ⟨h1, h2⟩]
  · intro v h
    rw [set_pressure, if_neg h]
  · have hi : pyint ((100 : ℚ) * 10) = 1000 := by
      rw [pyint, if_pos (by norm_num)]
      norm_num
    rw [set_pressure, if_pos (by norm_num), hi]
    decide
  · rw [set_pressure, if_neg (by norm_num)]

/-- Witness for `set_pressure_amended` at `v = 1/2`. -/
theorem set_pressure_amended_witness :
    (0 : ℚ) ≤ 1 / 2 ∧ (1 / 2 : ℚ) ≤ 100 ∧
    set_pressure (1 / 2) = some ([80, 83, 32, 32], [48, 48, 48, 53]) :=
  ⟨by norm_num, by norm_num,
    (set_pressure_amended.1 (1 / 2) (by norm_num) (by norm_num)).trans (by
      have hi : pyint ((1 : ℚ) / 2 * 10) = 5 := by
        rw [pyint, if_pos (by norm_num)]
        norm_num
      rw [hi]
      decide)⟩

/-! ### Claim C6: dispense-time encoding

Same `int()`-vs-`round()` discrepancy as C5.  At `v = 3/64 = 0.046875`
(dyadic, float-exact) `v * 10000 = 468.75`: the code sends `'T0468'`,
`round` would give `'T0469'`.  The claim's two concrete instances do
hold: `9.9999 ↦ 'T99999'` and `0.5 ↦ 'T5000'`. -/

/-- C6 counterexample: at `v = 3/64`, `set_dispense_time` encodes
`'T0468'`, not the `'T0469'` the claim's `round(v * 10000)` rule
prescribes. -/
theorem set_dispense_time_truncates_not_rounds :
    set_dispense_time (3 / 64) = some ([68, 83, 32, 32], [84, 48, 52, 54, 56]) ∧
    dispense_time_data_round (3 / 64) = [84, 48, 52, 54, 57] ∧
    set_dispense_time (3 / 64) ≠
      some ([68, 83, 32, 32], dispense_time_data_round (3 / 64)) := by
  have hi : pyint ((3 : ℚ) / 64 * 10000) = 468 := by
    rw [pyint, if_pos (by norm_num)]
    norm_num
  have hr : dispense_time_data_round (3 / 64) = [84, 48, 52, 54, 57] := by
    have : round ((3 : ℚ) / 64 * 10000) = 469 := by norm_num [round_eq]
    rw [dispense_time_data_round, if_pos (by norm_num), this]
    decide
  have he : set_dispense_time (3 / 64) = some ([68, 83, 32, 32], [84, 48, 52, 54, 56]) := by
    rw [set_dispense_time, if_pos (by norm_num), if_pos (by norm_num), hi]
    decide
  refine ⟨he, hr, ?_⟩
  rw [he, hr]
  decide

/-- C6 amended: for `v ∈ [0.0000, 9.9999]`, `set_dispense_time v`
encodes the data field as the literal `'T'` followed by `int(v * 10000)`
(truncation toward zero) zero-padded to 4 digits when `v < 1.0` and to 5
digits otherwise; in particular `9.9999` encodes to `'T99999'` and `0.5`
to `'T5000'`. -/
theorem set_dispense_time_amended :
    (∀ v : ℚ, 0 ≤ v → v ≤ 99999 / 10000 →
      set_dispense_time v = some ([68, 83, 32, 32],
        if v < 1 then 84 :: fmt0d 4 (pyint (v * 10000)).toNat
        else 84 :: fmt0d 5 (pyint (v * 10000)).toNat)) ∧
    (∀ v : ℚ, ¬(0 ≤ v ∧ v ≤ 99999 / 10000) → set_dispense_time v = none) ∧
    set_dispense_time (99999 / 10000) =
      some ([68, 83, 32, 32], [84, 57, 57, 57, 57, 57]) ∧
    set_dispense_time (1 / 2) = some ([68, 83, 32, 32], [84, 53, 48, 48, 48]) := by
  refine ⟨?_, ?_, ?_, ?_⟩
  · intro v h1 h2
    rw [set_dispense_time, if_pos ⟨h1, h2⟩]
  · intro v h
    rw [set_dispense_time, if_neg h]
  · have hi : pyint ((99999 : ℚ) / 10000 * 10000) = 99999 := by
      rw [pyint, if_pos (by norm_num)]
      norm_num
    rw [set_dispense_time, if_pos (by norm_num),
      if_neg (show ¬((99999 : ℚ) / 10000 < 1) from by norm_num), hi]
    decide
  · have hi : pyint ((1 : ℚ) / 2 * 10000) = 5000 := by
      rw [pyint, if_pos (by norm_num)]
      norm_num
    rw [set_dispense_time, if_pos (by norm_num), if_pos (by norm_num), hi]
    decide

/-- Witness for `set_dispense_time_amended` at `v = 1/4`. -/
theorem set_dispense_time_amended_witness :
    (0 : ℚ) ≤ 1 / 4 ∧ (1 / 4 : ℚ) ≤ 99999 / 10000 ∧
    set_dispense_time (1 / 4) = some ([68, 83, 32, 32], [84, 50, 53, 48, 48]) :=
  ⟨by norm_num, by norm_num,
    (set_dispense_time_amended.1 (1 / 4) (by norm_num) (by norm_num)).trans (by
      have hi : pyint ((1 : ℚ) / 4 * 10000) = 2500 := by
        rw [pyint, if_pos (by norm_num)]
        norm_num
      rw [if_pos (show (1 : ℚ) / 4 < 1 from by norm_num), hi]
      decide)⟩

/-! ### Claim C7: handshake failure sends no command bytes -/

/-- C7: if the single byte read after `ENQ (0x05)` is anything but
`ACK (0x06)` — an empty read included — the cycle's transport writes are
exactly the `ENQ` byte (no command frame bytes are ever written) and the
cycle ends in the handshake-failure state. -/
theorem handshake_failure_no_packet (ack code data : List Nat)
    (h : ack ≠ [6]) :
    (send_command_cycle ack code data).1 = [[5]] ∧
    (send_command_cycle ack code data).2 = CycleResult.handshakeFailed := by
  unfold send_command_cycle
  rw [if_neg h]
  exact ⟨rfl, rfl⟩

/-- Witness for `handshake_failure_no_packet` at an empty read. -/
theorem handshake_failure_no_packet_witness :
    ([] : List Nat) ≠ [6] ∧
    (send_command_cycle [] [80, 83, 32, 32] [48, 53, 48, 48]).1 = [[5]] ∧
    (send_command_cycle [] [80, 83, 32, 32] [48, 53, 48, 48]).2 =
      CycleResult.handshakeFailed :=
  ⟨by decide,
    (handshake_failure_no_packet [] [80, 83, 32, 32] [48, 53, 48, 48] (by decide)).1,
    (handshake_failure_no_packet [] [80, 83, 32, 32] [48, 53, 48, 48] (by decide)).2⟩

/-! ### Claim C8: toggle_mode flips the mode exactly once -/

/-- C8: the mode starts as Timed (`is_timed_mode = true`); every
`toggle_mode` invocation flips it exactly once, whatever the transport
answered (the flip is unconditional); no other operation changes it. -/
theorem toggle_mode_flips_once :
    init_is_timed_mode = true ∧
    (∀ (ack : List Nat) (mode : Bool),
      (dispenser_callback Op.toggleMode ack mode).1 = !mode) ∧
    (∀ (op : Op) (ack : List Nat) (mode : Bool), op ≠ Op.toggleMode →
      (dispenser_callback op ack mode).1 = mode) := by
  refine ⟨rfl, ?_, ?_⟩
  · intro ack mode
    rfl
  · intro op ack mode h
    cases op <;> first | rfl | exact absurd rfl h

/-- Witness for `toggle_mode_flips_once`: a toggle from the initial
Timed mode lands in Steady, and `start` leaves the mode alone. -/
theorem toggle_mode_flips_once_witness :
    Op.start ≠ Op.toggleMode ∧
    (dispenser_callback Op.start [6] true).1 = true ∧
    (dispenser_callback Op.toggleMode [6] true).1 = false :=
  ⟨by decide,
    toggle_mode_flips_once.2.2 Op.start [6] true (by decide),
    (toggle_mode_flips_once.2.1 [6] true).trans (by decide)⟩

/-! ### Claim C9: read-values payload parsing -/

/-- C9: the payload `'D0PD0500DT05000VC0100'` parses to pressure 50.0,
time 0.5000 and vacuum 10.0; a payload missing the `'VC'` marker fails
with the error naming `'VC'` (the markers `'D0'`, `'PD'`, `'DT'`, `'VC'`
are literal-checked in that order with 4-, 5- and 4-digit fields). -/
theorem parse_read_values_spec :
    parse_read_values
        [68, 48, 80, 68, 48, 53, 48, 48, 68, 84, 48, 53, 48, 48, 48, 86, 67, 48, 49, 48, 48] =
      Except.ok ((50 : ℚ), (1 / 2 : ℚ), (10 : ℚ)) ∧
    parse_read_values [68, 48, 80, 68, 48, 53, 48, 48, 68, 84, 48, 53, 48, 48, 48] =
      Except.error (ParseErr.missing [86, 67]) := by
  constructor
  · rw [parse_read_values]
    norm_num
    rw [(by decide : int10 [48, 53, 48, 48] = some 500),
      (by decide : int10 [48, 53, 48, 48, 48] = some 5000),
      (by decide : int10 [48, 49, 48, 48] = some 100)]
    norm_num
  · rw [parse_read_values]
    norm_num
    rw [(by decide : int10 [48, 53, 48, 48] = some 500),
      (by decide : int10 [48, 53, 48, 48, 48] = some 5000)]
    simp

/-! ### Claim C10: read_values defaults the memory location to 0 -/

/-- C10: invoking `read_values` without an argument defaults the memory
location to 0 and sends code `'E8'` with data `'000'`, identically to an
explicit `read_values 0`. -/
theorem read_values_default_location :
    read_values none = read_values (some 0) ∧
    read_values none = some ([69, 56], [48, 48, 48]) := by
  constructor <;> decide

end Nordson
